import Mathlib

/-!
Verification of the filtering and aggregation logic of the Netflix
analysis dashboard (src/netflixanalysis.py).

Fact tables are embedded as lists of (index label, row) pairs, mirroring
pandas DataFrames carrying an integer index.  The sidebar selection of one
render cycle is the FilterSpec record.  The module-level pipeline of the
script is embedded as pure functions: year cleaning (lines 106-110), the
year bounds (115-116), the filter pipeline (170-222), the KPI metrics
(231-234), the yearly trend outer merge (261-269), and the genre and
country popularity charts (342-395).
-/

namespace Netflix

/-- A raw fact-table row as returned by the movies and tvshows queries:
release_year is still an arbitrary string, rating may be NULL, and the
field other stands for every remaining column (title, duration_minutes,
seasons, ...), none of which the filter logic inspects. -/
structure RawRow where
  release_year : String
  rating : Option String
  other : Nat
deriving DecidableEq

/-- A cleaned fact-table row, after release_year passed the digit test and
was converted by astype(int). -/
structure Row where
  release_year : Nat
  rating : Option String
  other : Nat
deriving DecidableEq

/-- The tri-state content selector of the sidebar radio button, whose
source values are the strings Both, Movies and TV Shows. -/
inductive ContentType where
  | both
  | movies
  | tvshows
deriving DecidableEq

/-- The sidebar selection of one render cycle: year_range slider, content
type radio, and the genre, country and rating multiselects. -/
structure FilterSpec where
  year_range : Nat × Nat
  content_type : ContentType
  genres : List String
  countries : List String
  ratings : List String
deriving DecidableEq

/-- A pandas DataFrame of cleaned fact rows: (index label, row) pairs. -/
abbrev DF := List (Nat × Row)

/-- A DataFrame of raw fact rows, before year cleaning. -/
abbrev RawDF := List (Nat × RawRow)

/-- An association (bridge) table: (title row identifier, label) pairs,
used for both the genre and the country link tables. -/
abbrev LinkTable := List (Nat × String)

/-- Python str.isnumeric restricted to ASCII content: true exactly when
the string is non-empty and every character is a digit.  This is the mask
movies["release_year"].astype(str).str.isnumeric() of line 106. -/
def pyIsnumeric (s : String) : Bool :=
  !s.data.isEmpty && s.data.all Char.isDigit

/-- Decimal value of a digit string, the effect of astype(int) on a row
that passed the digit mask (lines 109-110). -/
def parseYear (s : String) : Nat :=
  s.data.foldl (fun n c => 10 * n + (c.toNat - 48)) 0

/-- Conversion of one retained raw row into a cleaned row. -/
def convertRow (r : RawRow) : Row :=
  { release_year := parseYear r.release_year, rating := r.rating, other := r.other }

/-- The Year Normalizer (lines 106-110): boolean-mask the frame by the
digit test, keeping the original index labels, then convert release_year
to an integer. -/
def cleanDF (t : RawDF) : DF :=
  (t.filter fun p => pyIsnumeric p.2.release_year).map fun p => (p.1, convertRow p.2)

/-- Minimum of a pandas integer series; the empty case never arises in the
running app (the slider needs data) and is given a default. -/
def seriesMin : List Nat → Nat
  | [] => 0
  | h :: t => t.foldl Nat.min h

/-- Maximum of a pandas integer series, with the same convention. -/
def seriesMax : List Nat → Nat
  | [] => 0
  | h :: t => t.foldl Nat.max h

/-- The release_year column of a cleaned frame. -/
def yearsOf (df : DF) : List Nat :=
  df.map fun p => p.2.release_year

/-- min_year of line 115: the smaller of the two per-table minima. -/
def min_year (m t : DF) : Nat :=
  Nat.min (seriesMin (yearsOf m)) (seriesMin (yearsOf t))

/-- max_year of line 116: the larger of the two per-table maxima. -/
def max_year (m t : DF) : Nat :=
  Nat.max (seriesMax (yearsOf m)) (seriesMax (yearsOf t))

/-- The year predicate of line 170: release_year.between(*year_range),
inclusive on both ends, keeping index labels. -/
def betweenFilter (df : DF) (lo hi : Nat) : DF :=
  df.filter fun p => decide (lo ≤ p.2.release_year) && decide (p.2.release_year ≤ hi)

/-- The rating step of lines 174-176: applied only when the multiselect is
non-empty; rating.isin(rating_filter) is false on a NULL rating. -/
def ratingFilter (df : DF) (ratings : List String) : DF :=
  if ratings.isEmpty then df
  else df.filter fun p =>
    match p.2.rating with
    | some r => decide (r ∈ ratings)
    | none => false

/-- The content-type branch of lines 179-182: the excluded category is
replaced by iloc[0:0], the empty frame. -/
def contentFilter (mf tf : DF) (c : ContentType) : DF × DF :=
  match c with
  | ContentType.both => (mf, tf)
  | ContentType.movies => (mf, [])
  | ContentType.tvshows => ([], tf)

/-- reset_index(drop=True) of lines 183-184: discard the index labels and
renumber the rows 0, 1, 2, ... in order. -/
def resetIndex (df : DF) : DF :=
  (df.map Prod.snd).enum

/-- Modelled from the spec: the SQLite database schema behind the
SELECT DISTINCT rowid queries of lines 192-210 is not in the source tree.
Per the spec, a GenreLink row associates a title row identifier with a
genre label, so the query yields the distinct identifiers linked to at
least one selected genre. -/
def selectedIds (links : LinkTable) (genres : List String) : List Nat :=
  ((links.filter fun l => decide (l.2 ∈ genres)).map Prod.fst).dedup

/-- The per-table genre step of lines 214-222: when the id list is empty
the frame is replaced by iloc[0:0], otherwise rows whose current index
label is in the id list are kept. -/
def genreStep (df : DF) (ids : List Nat) : DF :=
  if ids.isEmpty then [] else df.filter fun p => decide (p.1 ∈ ids)

/-- The year, rating and content steps followed by the reset_index calls
(lines 170-184), before the genre block runs. -/
def preGenre (movies tvshows : DF) (spec : FilterSpec) : DF × DF :=
  let mf := ratingFilter (betweenFilter movies spec.year_range.1 spec.year_range.2) spec.ratings
  let tf := ratingFilter (betweenFilter tvshows spec.year_range.1 spec.year_range.2) spec.ratings
  let pair := contentFilter mf tf spec.content_type
  (resetIndex pair.1, resetIndex pair.2)

/-- The whole Filter Engine (lines 170-222): the pre-genre pipeline, then,
when the genre multiselect is non-empty, the id match against the
identifiers returned for the selected genres. -/
def applyFilters (movies tvshows : DF) (movieLinks tvLinks : LinkTable)
    (spec : FilterSpec) : DF × DF :=
  let pair := preGenre movies tvshows spec
  if spec.genres.isEmpty then pair
  else (genreStep pair.1 (selectedIds movieLinks spec.genres),
        genreStep pair.2 (selectedIds tvLinks spec.genres))

/-- The KPI metrics of lines 231-234: movie count, TV show count, and the
total written as len(movies_f) + len(tvshows_f). -/
def kpiMetrics (pair : DF × DF) : Nat × Nat × Nat :=
  (pair.1.length, pair.2.length, pair.1.length + pair.2.length)

/-- Insertion into an ascending list of years. -/
def insertAsc (x : Nat) : List Nat → List Nat
  | [] => [x]
  | y :: ys => if x ≤ y then x :: y :: ys else y :: insertAsc x ys

/-- Ascending insertion sort, the key order produced by pandas groupby and
by the outer merge. -/
def sortAsc : List Nat → List Nat
  | [] => []
  | x :: xs => insertAsc x (sortAsc xs)

/-- Number of rows of a frame at one release year. -/
def countYear (df : DF) (y : Nat) : Nat :=
  (df.filter fun p => decide (p.2.release_year = y)).length

/-- groupby("release_year").size() of lines 261-262: one (year, count)
row per distinct year, keys ascending. -/
def groupCount (df : DF) : List (Nat × Nat) :=
  (sortAsc (yearsOf df).dedup).map fun y => (y, countYear df y)

/-- Key column of a grouped table. -/
def keysOf (l : List (Nat × Nat)) : List Nat :=
  l.map Prod.fst

/-- Count looked up by key, 0 when the key is absent: the effect of
fillna(0) on the merged frame. -/
def lookupZero (l : List (Nat × Nat)) (y : Nat) : Nat :=
  match l.find? fun p => decide (p.1 = y) with
  | some p => p.2
  | none => 0

/-- pd.merge(..., on="release_year", how="outer").fillna(0) of lines
264-269, on grouped tables with unique keys: one row per key present on
either side, absent counts filled with zero. -/
def outerMerge (l r : List (Nat × Nat)) : List (Nat × Nat × Nat) :=
  (sortAsc ((keysOf l ++ keysOf r).dedup)).map fun y => (y, lookupZero l y, lookupZero r y)

/-- The yearly trend table fed to the line chart. -/
def trendDF (mf tf : DF) : List (Nat × Nat × Nat) :=
  outerMerge (groupCount mf) (groupCount tf)

/-- Number of link rows carrying one label. -/
def countLabel (links : LinkTable) (g : String) : Nat :=
  (links.filter fun l => decide (l.2 = g)).length

/-- Insertion into a list ordered by descending count; on equal counts the
incoming element goes after the ones already placed (stable). -/
def insertDesc (x : String × Nat) : List (String × Nat) → List (String × Nat)
  | [] => [x]
  | y :: ys => if y.2 < x.2 then x :: y :: ys else y :: insertDesc x ys

/-- Stable insertion sort by descending count. -/
def sortDesc : List (String × Nat) → List (String × Nat)
  | [] => []
  | x :: xs => insertDesc x (sortDesc xs)

/-- Modelled from the spec: the SQLite engine that executes the
GROUP BY label ORDER BY total DESC queries of lines 50-91 is not in the
source tree.  Per the spec, the popularity aggregate is the list of
(label, count) pairs of the full unfiltered association table, sorted
descending by count. -/
def genrePopularity (links : LinkTable) : List (String × Nat) :=
  sortDesc (((links.map Prod.snd).dedup).map fun g => (g, countLabel links g))

/-- The chart inputs and KPI values of one render cycle that the claims
speak about; the remaining charts (rating, seasons, duration) reuse the
same filtered pair and groupby shape. -/
structure Dashboard where
  kpis : Nat × Nat × Nat
  pieCounts : Nat × Nat
  trend : List (Nat × Nat × Nat)
  movieGenreChart : List (String × Nat)
  tvGenreChart : List (String × Nat)
  movieCountryChart : List (String × Nat)
  tvCountryChart : List (String × Nat)
deriving DecidableEq

/-- One render cycle of the dashboard: clean both fact tables, run the
Filter Engine under the sidebar selection, and emit the KPI triple, the
trend table, and the four popularity charts (each truncated by head(10)
from the unfiltered association aggregates, lines 342-395). -/
def renderDashboard (moviesRaw tvshowsRaw : RawDF)
    (movieGenreLinks tvGenreLinks movieCountryLinks tvCountryLinks : LinkTable)
    (spec : FilterSpec) : Dashboard :=
  let movies := cleanDF moviesRaw
  let tvshows := cleanDF tvshowsRaw
  let pair := applyFilters movies tvshows movieGenreLinks tvGenreLinks spec
  { kpis := kpiMetrics pair,
    pieCounts := (pair.1.length, pair.2.length),
    trend := trendDF pair.1 pair.2,
    movieGenreChart := (genrePopularity movieGenreLinks).take 10,
    tvGenreChart := (genrePopularity tvGenreLinks).take 10,
    movieCountryChart := (genrePopularity movieCountryLinks).take 10,
    tvCountryChart := (genrePopularity tvCountryLinks).take 10 }

/-! Helper lemmas shared by the claim theorems. -/

theorem genreStep_nil (ids : List Nat) : genreStep [] ids = [] := by
  unfold genreStep
  split <;> simp

/-- Claim C4: a row survives the year predicate iff its release_year lies
within the inclusive bounds, and the scenario with rows at years 2014,
2015, 2018, 2020 under year_range (2015, 2018), content type Both and no
rating or genre selection yields exactly the 2015 and 2018 rows. -/
theorem C4_year_between (df : DF) (lo hi : Nat) (p : Nat × Row) :
    (p ∈ betweenFilter df lo hi ↔
      p ∈ df ∧ lo ≤ p.2.release_year ∧ p.2.release_year ≤ hi)
    ∧ (applyFilters
        [(0, ⟨2014, none, 0⟩), (1, ⟨2015, none, 1⟩), (2, ⟨2018, none, 2⟩), (3, ⟨2020, none, 3⟩)]
        [] [] [] ⟨(2015, 2018), ContentType.both, [], [], []⟩).1
      = [(0, ⟨2015, none, 1⟩), (1, ⟨2018, none, 2⟩)] := by
  constructor
  · simp [betweenFilter, List.mem_filter, and_assoc]
  · rfl

/-- Claim C6: the KPI summary of any filtered pair is the two row counts
and their sum, and its third component equals the sum of the first two. -/
theorem C6_kpi_total (movies tvshows : DF) (ml tl : LinkTable) (spec : FilterSpec) :
    kpiMetrics (applyFilters movies tvshows ml tl spec)
      = ((applyFilters movies tvshows ml tl spec).1.length,
         (applyFilters movies tvshows ml tl spec).2.length,
         (applyFilters movies tvshows ml tl spec).1.length
           + (applyFilters movies tvshows ml tl spec).2.length)
    ∧ (kpiMetrics (applyFilters movies tvshows ml tl spec)).2.2
      = (kpiMetrics (applyFilters movies tvshows ml tl spec)).1
        + (kpiMetrics (applyFilters movies tvshows ml tl spec)).2.1 :=
  ⟨rfl, rfl⟩

/-- Claim C9: the countries field of the FilterSpec is never consumed, so
two runs differing only in it produce identical filtered tables and an
identical dashboard. -/
theorem C9_countries_unused (mr tr : RawDF) (mg tg mcl tcl : LinkTable)
    (spec : FilterSpec) (c1 c2 : List String) :
    applyFilters (cleanDF mr) (cleanDF tr) mg tg { spec with countries := c1 }
      = applyFilters (cleanDF mr) (cleanDF tr) mg tg { spec with countries := c2 }
    ∧ renderDashboard mr tr mg tg mcl tcl { spec with countries := c1 }
      = renderDashboard mr tr mg tg mcl tcl { spec with countries := c2 } :=
  ⟨rfl, rfl⟩

/-- Claim C5: when the content type excludes a category, that category
comes out of the Filter Engine as the empty table, whatever the other
predicates are. -/
theorem C5_content_excluded_empty (movies tvshows : DF) (ml tl : LinkTable)
    (spec : FilterSpec) :
    (spec.content_type = ContentType.movies →
      (applyFilters movies tvshows ml tl spec).2 = [])
    ∧ (spec.content_type = ContentType.tvshows →
      (applyFilters movies tvshows ml tl spec).1 = []) := by
  constructor <;> intro h <;>
    simp only [applyFilters, preGenre, h, contentFilter] <;>
    split <;>
    simp [resetIndex, genreStep_nil]

theorem C5_content_excluded_empty_witness :
    (applyFilters [(0, ⟨2015, none, 0⟩)] [(0, ⟨2016, none, 0⟩)] [] []
        ⟨(2000, 2020), ContentType.movies, [], [], []⟩).2 = []
    ∧ (applyFilters [(0, ⟨2015, none, 0⟩)] [(0, ⟨2016, none, 0⟩)] [] []
        ⟨(2000, 2020), ContentType.tvshows, [], [], []⟩).1 = [] :=
  ⟨(C5_content_excluded_empty _ _ _ _ _).1 rfl,
   (C5_content_excluded_empty _ _ _ _ _).2 rfl⟩

/-- Claim C2: with a non-empty genre selection whose join yields zero
identifiers for a fact table, the Filter Engine returns the empty table
for that fact table, never the unfiltered or otherwise-filtered input. -/
theorem C2_empty_join_empty_table (movies tvshows : DF) (ml tl : LinkTable)
    (spec : FilterSpec) (hg : spec.genres ≠ []) :
    (selectedIds ml spec.genres = [] →
      (applyFilters movies tvshows ml tl spec).1 = [])
    ∧ (selectedIds tl spec.genres = [] →
      (applyFilters movies tvshows ml tl spec).2 = []) := by
  have hg2 : spec.genres.isEmpty = false := by
    cases h : spec.genres with
    | nil => exact absurd h hg
    | cons a l => rfl
  constructor <;> intro hid <;> simp [applyFilters, hg2, hid, genreStep]

theorem C2_empty_join_empty_table_witness :
    (applyFilters [(0, ⟨2015, none, 0⟩)] [(0, ⟨2016, none, 0⟩)]
        [(0, "Action")] [(5, "Action")]
        ⟨(2000, 2020), ContentType.both, ["Drama"], [], []⟩).1 = []
    ∧ (applyFilters [(0, ⟨2015, none, 0⟩)] [(0, ⟨2016, none, 0⟩)]
        [(0, "Action")] [(5, "Action")]
        ⟨(2000, 2020), ContentType.both, ["Drama"], [], []⟩).2 = [] :=
  ⟨(C2_empty_join_empty_table _ _ _ _ _ (by decide)).1 (by decide),
   (C2_empty_join_empty_table _ _ _ _ _ (by decide)).2 (by decide)⟩

/-- Claim C10: with a non-empty rating selection a row whose rating is
absent never passes the rating predicate, while an empty selection leaves
the table untouched, absent ratings included. -/
theorem C10_null_rating_excluded (df : DF) (ratings : List String)
    (p : Nat × Row) (hne : ratings ≠ []) (hnone : p.2.rating = none) :
    p ∉ ratingFilter df ratings ∧ ratingFilter df [] = df := by
  constructor
  · have h2 : ratings.isEmpty = false := by
      cases h : ratings with
      | nil => exact absurd h hne
      | cons a l => rfl
    intro hmem
    simp [ratingFilter, h2, List.mem_filter, hnone] at hmem
  · rfl

theorem C10_null_rating_excluded_witness :
    (1, (⟨2015, none, 0⟩ : Row)) ∉
      ratingFilter [(1, ⟨2015, none, 0⟩)] ["TV-MA"]
    ∧ ratingFilter [(1, (⟨2015, none, 0⟩ : Row))] [] = [(1, ⟨2015, none, 0⟩)] :=
  C10_null_rating_excluded _ _ _ (by decide) rfl

/-- Claim C1, evaluated at a failing input: title 1 passes the year
predicate (years 2015-2015 over a table with rows at 2000 and 2015) and
identifier 1 is linked to the selected genre Drama, yet the Filter Engine
returns the empty movies table: reset_index renumbered the surviving row
to index 0 before the identifier match, so identifier 1 no longer names
any row of the filtered frame. -/
theorem C1_reset_index_breaks_genre_match :
    ((1, (⟨2015, none, 0⟩ : Row))
        ∈ betweenFilter [(0, ⟨2000, none, 0⟩), (1, ⟨2015, none, 0⟩)] 2015 2015)
    ∧ (1 ∈ selectedIds [(1, "Drama")] ["Drama"])
    ∧ (applyFilters [(0, ⟨2000, none, 0⟩), (1, ⟨2015, none, 0⟩)] []
        [(1, "Drama")] []
        ⟨(2015, 2015), ContentType.both, ["Drama"], [], []⟩).1 = [] :=
  ⟨by decide, by decide, by decide⟩

theorem foldl_min_le_init (l : List Nat) (a : Nat) : l.foldl Nat.min a ≤ a := by
  induction l generalizing a with
  | nil => exact le_refl a
  | cons h t ih => exact le_trans (ih (Nat.min a h)) (Nat.min_le_left a h)

theorem foldl_min_le_mem (y : Nat) :
    ∀ (l : List Nat) (a : Nat), y ∈ l → l.foldl Nat.min a ≤ y := by
  intro l
  induction l with
  | nil => intro a h; cases h
  | cons hd t ih =>
    intro a hy
    rcases List.mem_cons.mp hy with h1 | h2
    · subst h1
      exact le_trans (foldl_min_le_init t (Nat.min a y)) (Nat.min_le_right a y)
    · exact ih (Nat.min a hd) h2

theorem seriesMin_le (l : List Nat) (y : Nat) (hy : y ∈ l) : seriesMin l ≤ y := by
  cases l with
  | nil => cases hy
  | cons h t =>
    rcases List.mem_cons.mp hy with h1 | h2
    · subst h1; exact foldl_min_le_init t y
    · exact foldl_min_le_mem y t h h2

theorem init_le_foldl_max (l : List Nat) (a : Nat) : a ≤ l.foldl Nat.max a := by
  induction l generalizing a with
  | nil => exact le_refl a
  | cons h t ih => exact le_trans (Nat.le_max_left a h) (ih (Nat.max a h))

theorem mem_le_foldl_max (y : Nat) :
    ∀ (l : List Nat) (a : Nat), y ∈ l → y ≤ l.foldl Nat.max a := by
  intro l
  induction l with
  | nil => intro a h; cases h
  | cons hd t ih =>
    intro a hy
    rcases List.mem_cons.mp hy with h1 | h2
    · subst h1
      exact le_trans (Nat.le_max_right a y) (init_le_foldl_max t (Nat.max a y))
    · exact ih (Nat.max a hd) h2

theorem le_seriesMax (l : List Nat) (y : Nat) (hy : y ∈ l) : y ≤ seriesMax l := by
  cases l with
  | nil => cases hy
  | cons h t =>
    rcases List.mem_cons.mp hy with h1 | h2
    · subst h1; exact init_le_foldl_max t y
    · exact mem_le_foldl_max y t h h2

/-- Claim C3: the Year Normalizer keeps exactly the rows whose raw
release_year string passes the digit test, each converted to its integer
value with its index label kept, drops all other rows, and afterwards
every remaining year of either fact table lies between the observed
min_year and max_year. -/
theorem C3_year_normalizer (movies tvshows : RawDF) :
    (∀ q : Nat × Row, q ∈ cleanDF movies ↔
        ∃ p, p ∈ movies ∧ pyIsnumeric p.2.release_year = true
          ∧ q = (p.1, convertRow p.2))
    ∧ (cleanDF movies).length
        = (movies.filter fun p => pyIsnumeric p.2.release_year).length
    ∧ (∀ y, y ∈ yearsOf (cleanDF movies) ++ yearsOf (cleanDF tvshows) →
        min_year (cleanDF movies) (cleanDF tvshows) ≤ y
        ∧ y ≤ max_year (cleanDF movies) (cleanDF tvshows)) := by
  refine ⟨?_, ?_, ?_⟩
  · intro q
    simp only [cleanDF, List.mem_map, List.mem_filter]
    constructor
    · rintro ⟨p, ⟨hp, hnum⟩, rfl⟩
      exact ⟨p, hp, hnum, rfl⟩
    · rintro ⟨p, hp, hnum, rfl⟩
      exact ⟨p, ⟨hp, hnum⟩, rfl⟩
  · simp [cleanDF]
  · intro y hy
    rcases List.mem_append.mp hy with h1 | h2
    · exact ⟨le_trans (Nat.min_le_left _ _) (seriesMin_le _ _ h1),
        le_trans (le_seriesMax _ _ h1) (Nat.le_max_left _ _)⟩
    · exact ⟨le_trans (Nat.min_le_right _ _) (seriesMin_le _ _ h2),
        le_trans (le_seriesMax _ _ h2) (Nat.le_max_right _ _)⟩

theorem C3_year_normalizer_witness :
    ((0, (⟨2001, none, 7⟩ : Row))
        ∈ cleanDF [(0, ⟨"2001", none, 7⟩), (1, ⟨"20a1", none, 3⟩)])
    ∧ (min_year (cleanDF [(0, ⟨"2001", none, 7⟩), (1, ⟨"20a1", none, 3⟩)])
          (cleanDF [(0, ⟨"1999", none, 0⟩)]) ≤ 2001
      ∧ 2001 ≤ max_year (cleanDF [(0, ⟨"2001", none, 7⟩), (1, ⟨"20a1", none, 3⟩)])
          (cleanDF [(0, ⟨"1999", none, 0⟩)])) :=
  ⟨((C3_year_normalizer _ [(0, ⟨"1999", none, 0⟩)]).1 _).mpr
      ⟨(0, ⟨"2001", none, 7⟩), by decide, by decide, by decide⟩,
   (C3_year_normalizer _ _).2.2 2001 (by decide)⟩

theorem mem_insertAsc {a x : Nat} {l : List Nat} :
    a ∈ insertAsc x l ↔ a = x ∨ a ∈ l := by
  induction l with
  | nil => simp [insertAsc]
  | cons y ys ih =>
    unfold insertAsc
    split
    · simp [List.mem_cons]
    · simp only [List.mem_cons, ih]
      tauto

theorem nodup_insertAsc {x : Nat} {l : List Nat} (hx : x ∉ l) (h : l.Nodup) :
    (insertAsc x l).Nodup := by
  induction l with
  | nil => simp [insertAsc]
  | cons y ys ih =>
    unfold insertAsc
    split
    · exact List.nodup_cons.mpr ⟨hx, h⟩
    · have hx2 : x ∉ ys := fun hmem => hx (List.mem_cons_of_mem _ hmem)
      have hxy : x ≠ y := fun he => hx (he ▸ List.mem_cons_self _ _)
      obtain ⟨hy, hys⟩ := List.nodup_cons.mp h
      refine List.nodup_cons.mpr ⟨?_, ih hx2 hys⟩
      intro hmem
      rcases mem_insertAsc.mp hmem with h1 | h2
      · exact hxy h1.symm
      · exact hy h2

theorem mem_sortAsc {a : Nat} {l : List Nat} : a ∈ sortAsc l ↔ a ∈ l := by
  induction l with
  | nil => simp [sortAsc]
  | cons x xs ih =>
    unfold sortAsc
    rw [mem_insertAsc, ih, List.mem_cons]

theorem nodup_sortAsc {l : List Nat} (h : l.Nodup) : (sortAsc l).Nodup := by
  induction l with
  | nil => simp [sortAsc]
  | cons x xs ih =>
    obtain ⟨hx, hxs⟩ := List.nodup_cons.mp h
    unfold sortAsc
    exact nodup_insertAsc (fun hm => hx (mem_sortAsc.mp hm)) (ih hxs)

theorem lookupZero_of_not_mem {l : List (Nat × Nat)} {y : Nat}
    (h : y ∉ keysOf l) : lookupZero l y = 0 := by
  unfold lookupZero
  have hn : l.find? (fun p => decide (p.1 = y)) = none := by
    rw [List.find?_eq_none]
    intro p hp
    simp only [decide_eq_true_eq]
    intro he
    exact h (he ▸ List.mem_map_of_mem Prod.fst hp)
  rw [hn]

theorem mem_outerMerge {l r : List (Nat × Nat)} {y mc tc : Nat} :
    (y, mc, tc) ∈ outerMerge l r ↔
      ((y ∈ keysOf l ∨ y ∈ keysOf r)
        ∧ mc = lookupZero l y ∧ tc = lookupZero r y) := by
  unfold outerMerge
  rw [List.mem_map]
  constructor
  · rintro ⟨z, hz, he⟩
    cases he
    rw [mem_sortAsc, List.mem_dedup, List.mem_append] at hz
    exact ⟨hz, rfl, rfl⟩
  · rintro ⟨hy, rfl, rfl⟩
    refine ⟨y, ?_, rfl⟩
    rw [mem_sortAsc, List.mem_dedup, List.mem_append]
    exact hy

/-- Claim C7: the yearly trend table holds exactly one row per year that
appears in the grouped output of either filtered table, the counts are the
looked-up group sizes with the absent side filled with zero, and the years
of a grouped table are exactly the years occurring in that table. -/
theorem C7_trend_outer_join (mf tf : DF) :
    (∀ y mc tc, (y, mc, tc) ∈ trendDF mf tf ↔
        ((y ∈ keysOf (groupCount mf) ∨ y ∈ keysOf (groupCount tf))
          ∧ mc = lookupZero (groupCount mf) y
          ∧ tc = lookupZero (groupCount tf) y))
    ∧ ((trendDF mf tf).map (fun row => row.1)).Nodup
    ∧ (∀ y, y ∉ keysOf (groupCount mf) → lookupZero (groupCount mf) y = 0)
    ∧ (∀ y, y ∉ keysOf (groupCount tf) → lookupZero (groupCount tf) y = 0)
    ∧ (∀ y, y ∈ keysOf (groupCount mf) ↔ y ∈ yearsOf mf) := by
  refine ⟨fun y mc tc => mem_outerMerge, ?_,
    fun y h => lookupZero_of_not_mem h, fun y h => lookupZero_of_not_mem h, ?_⟩
  · have hmap : (trendDF mf tf).map (fun row => row.1)
        = sortAsc ((keysOf (groupCount mf) ++ keysOf (groupCount tf)).dedup) := by
      unfold trendDF outerMerge
      rw [List.map_map]
      exact List.map_id _
    rw [hmap]
    exact nodup_sortAsc (List.nodup_dedup _)
  · intro y
    have hk : keysOf (groupCount mf) = sortAsc (yearsOf mf).dedup := by
      unfold keysOf groupCount
      rw [List.map_map]
      exact List.map_id _
    rw [hk, mem_sortAsc, List.mem_dedup]

theorem C7_trend_outer_join_witness :
    (2000, 1, 0) ∈ trendDF [(0, ⟨2000, none, 0⟩)] [(0, ⟨2001, none, 0⟩)]
    ∧ lookupZero (groupCount ([(0, ⟨2001, none, 0⟩)] : DF)) 2000 = 0 :=
  ⟨((C7_trend_outer_join [(0, ⟨2000, none, 0⟩)] [(0, ⟨2001, none, 0⟩)]).1
      2000 1 0).mpr ⟨Or.inl (by decide), by decide, by decide⟩,
   (C7_trend_outer_join [(0, ⟨2000, none, 0⟩)]
      [(0, ⟨2001, none, 0⟩)]).2.2.2.1 2000 (by decide)⟩

theorem mem_insertDesc {a x : String × Nat} {l : List (String × Nat)} :
    a ∈ insertDesc x l ↔ a = x ∨ a ∈ l := by
  induction l with
  | nil => simp [insertDesc]
  | cons y ys ih =>
    unfold insertDesc
    split
    · simp [List.mem_cons]
    · simp only [List.mem_cons, ih]
      tauto

theorem pairwise_insertDesc {x : String × Nat} {l : List (String × Nat)}
    (h : l.Pairwise fun a b => b.2 ≤ a.2) :
    (insertDesc x l).Pairwise fun a b => b.2 ≤ a.2 := by
  induction l with
  | nil => simp [insertDesc]
  | cons y ys ih =>
    obtain ⟨hy, hys⟩ := List.pairwise_cons.mp h
    unfold insertDesc
    split
    · rename_i hlt
      refine List.pairwise_cons.mpr ⟨?_, h⟩
      intro b hb
      rcases List.mem_cons.mp hb with h1 | h2
      · subst h1
        exact le_of_lt hlt
      · exact le_trans (hy b h2) (le_of_lt hlt)
    · rename_i hnlt
      refine List.pairwise_cons.mpr ⟨?_, ih hys⟩
      intro b hb
      rcases mem_insertDesc.mp hb with h1 | h2
      · subst h1
        exact Nat.le_of_not_lt hnlt
      · exact hy b h2

theorem pairwise_sortDesc (l : List (String × Nat)) :
    (sortDesc l).Pairwise fun a b => b.2 ≤ a.2 := by
  induction l with
  | nil => simp [sortDesc]
  | cons x xs ih =>
    unfold sortDesc
    exact pairwise_insertDesc ih

/-- Claim C8: each popularity chart is the top-10 truncation of the
aggregate of the corresponding full unfiltered association table, that
aggregate is sorted descending by count, and the charts are identical
across any two FilterSpecs, whatever their year_range, content_type or
ratings. -/
theorem C8_popularity_filter_independent (mr tr : RawDF)
    (mg tg mcl tcl : LinkTable) (s1 s2 : FilterSpec) :
    (renderDashboard mr tr mg tg mcl tcl s1).movieGenreChart
        = (genrePopularity mg).take 10
    ∧ (renderDashboard mr tr mg tg mcl tcl s1).tvGenreChart
        = (genrePopularity tg).take 10
    ∧ (renderDashboard mr tr mg tg mcl tcl s1).movieCountryChart
        = (genrePopularity mcl).take 10
    ∧ (renderDashboard mr tr mg tg mcl tcl s1).tvCountryChart
        = (genrePopularity tcl).take 10
    ∧ (genrePopularity mg).Pairwise (fun a b => b.2 ≤ a.2)
    ∧ ((genrePopularity mg).take 10).length ≤ 10
    ∧ (renderDashboard mr tr mg tg mcl tcl s1).movieGenreChart
        = (renderDashboard mr tr mg tg mcl tcl s2).movieGenreChart
    ∧ (renderDashboard mr tr mg tg mcl tcl s1).tvGenreChart
        = (renderDashboard mr tr mg tg mcl tcl s2).tvGenreChart
    ∧ (renderDashboard mr tr mg tg mcl tcl s1).movieCountryChart
        = (renderDashboard mr tr mg tg mcl tcl s2).movieCountryChart
    ∧ (renderDashboard mr tr mg tg mcl tcl s1).tvCountryChart
        = (renderDashboard mr tr mg tg mcl tcl s2).tvCountryChart :=
  ⟨rfl, rfl, rfl, rfl,
   pairwise_sortDesc _,
   by rw [List.length_take]; exact Nat.min_le_left _ _,
   rfl, rfl, rfl, rfl⟩

end Netflix
